import Mathlib

/-!
Shallow embedding of the full-page slider (src/src/script.js, with the express
variant in src/index.js sharing the same controller logic) and proofs about it.

The DOM contract fixes the attribute data-slide of the i-th slide/indicator
(0-based i) to be the 1-based position i+1, so element lookup by data-slide is
modelled positionally.  Timers (setTimeout) are modelled explicitly: the
scheduled unlock is recorded in the state (pendingUnlock) and firing the
callback is the function releaseLock; the wheel debounce is modelled as a
timestamped event fold (runWheel).
-/

namespace SliderApp

/-- CONFIG.transitionDuration in ms. -/
def transitionDuration : Nat := 600

/-- CONFIG.scrollThrottle in ms: the wheel-debounce quiet period. -/
def scrollThrottle : Nat := 50

/-- CONFIG.swipeThreshold in px. -/
def swipeThreshold : Nat := 50

/-- SCROLL_SAFEZONE in px, local to setupWheelNavigation in script.js. -/
def scrollSafezone : Int := 800

/-- The viewport-width breakpoint (px) below which wheel navigation is off. -/
def mobileBreakpoint : Int := 768

/-- JavaScript Boolean.prototype.toString. -/
def jsBoolString (b : Bool) : String := if b then "true" else "false"

/-- A .slide element: its optional id attribute and whether it carries the
active class.  Its data-slide attribute is its 1-based position in the list. -/
structure Slide where
  id : Option String
  active : Bool
deriving DecidableEq

/-- An .indicator element: active class and the aria-selected attribute. -/
structure Indicator where
  active : Bool
  ariaSelected : String
deriving DecidableEq

/-- A navigation button (prevBtn / nextBtn). -/
structure NavButton where
  disabled : Bool
  ariaDisabled : String
deriving DecidableEq

/-- The whole observable state: the module state object of SliderApp plus the
DOM pieces the controller reads and writes.  pendingUnlock records a scheduled
setTimeout that will set isAnimating back to false. -/
structure AppState where
  currentSlide : Int
  isAnimating : Bool
  totalSlides : Int
  slideIdMap : List (String × Int)
  slides : List Slide
  indicators : List Indicator
  prevBtn : NavButton
  nextBtn : NavButton
  urlHash : Option String
  pendingUnlock : Option Nat
deriving DecidableEq

/-- isValidSlideNumber: slideNumber greater or equal 1 and at most totalSlides. -/
def isValidSlideNumber (s : AppState) (n : Int) : Bool :=
  decide (1 ≤ n) && decide (n ≤ s.totalSlides)

/-- forEach slide, classList.remove active. -/
def clearActiveSlides (l : List Slide) : List Slide :=
  l.map fun sl => { sl with active := false }

/-- forEach indicator, classList.remove active. -/
def clearActiveIndicators (l : List Indicator) : List Indicator :=
  l.map fun ind => { ind with active := false }

/-- Helper for the querySelector by data-slide plus classList.add on slides:
the element at 1-based position counted from k gets the active class. -/
def setActiveSlideFrom (k n : Int) : List Slide → List Slide
  | [] => []
  | sl :: rest =>
    (if k = n then { sl with active := true } else sl) :: setActiveSlideFrom (k + 1) n rest

/-- querySelector of the slide with data-slide n, then classList.add active;
a no-op when no such slide exists (the if targetSlide null check). -/
def setActiveSlide (l : List Slide) (n : Int) : List Slide := setActiveSlideFrom 1 n l

/-- Same for indicators. -/
def setActiveIndicatorFrom (k n : Int) : List Indicator → List Indicator
  | [] => []
  | ind :: rest =>
    (if k = n then { ind with active := true } else ind) :: setActiveIndicatorFrom (k + 1) n rest

/-- querySelector of the indicator with data-slide n, then classList.add active. -/
def setActiveIndicator (l : List Indicator) (n : Int) : List Indicator :=
  setActiveIndicatorFrom 1 n l

/-- updateAriaAttributes body: indicator at 0-based index i gets
aria-selected set to the string of (i + 1 === slideNumber). -/
def updateAriaFrom (k n : Int) : List Indicator → List Indicator
  | [] => []
  | ind :: rest =>
    { ind with ariaSelected := jsBoolString (decide (k = n)) } :: updateAriaFrom (k + 1) n rest

/-- updateAriaAttributes(slideNumber). -/
def updateAriaAttributes (n : Int) (s : AppState) : AppState :=
  { s with indicators := updateAriaFrom 1 n s.indicators }

/-- querySelector of .slide with data-slide n (positions counted from k). -/
def slideAtFrom (k n : Int) : List Slide → Option Slide
  | [] => none
  | sl :: rest => if k = n then some sl else slideAtFrom (k + 1) n rest

/-- querySelector of the slide with data-slide n. -/
def slideAt (l : List Slide) (n : Int) : Option Slide := slideAtFrom 1 n l

/-- updateURL(slideNumber): history.pushState of the target slide's id hash,
a no-op when the slide is absent or carries no id. -/
def updateURL (n : Int) (s : AppState) : AppState :=
  match slideAt s.slides n with
  | some sl =>
    match sl.id with
    | some sid => { s with urlHash := some sid }
    | none => s
  | none => s

/-- updateNavigationButtons: disabled and aria-disabled of prevBtn/nextBtn
from whether currentSlide is the first/last slide. -/
def updateNavigationButtons (s : AppState) : AppState :=
  let isFirstSlide := decide (s.currentSlide = 1)
  let isLastSlide := decide (s.currentSlide = s.totalSlides)
  { s with
    prevBtn := { disabled := isFirstSlide, ariaDisabled := jsBoolString isFirstSlide },
    nextBtn := { disabled := isLastSlide, ariaDisabled := jsBoolString isLastSlide } }

/-- goToSlide(slideNumber), translated statement by statement from script.js. -/
def goToSlide (n : Int) (s : AppState) : AppState :=
  if s.isAnimating || !isValidSlideNumber s n then s
  else
    let s1 := { s with isAnimating := true }
    let s2 := { s1 with slides := clearActiveSlides s1.slides,
                        indicators := clearActiveIndicators s1.indicators }
    let s3 := { s2 with slides := setActiveSlide s2.slides n,
                        indicators := setActiveIndicator s2.indicators n }
    let s4 := { s3 with currentSlide := n }
    let s5 := updateNavigationButtons s4
    let s6 := updateAriaAttributes n s5
    let s7 := updateURL n s6
    { s7 with pendingUnlock := some transitionDuration }

/-- The scheduled setTimeout callback of goToSlide firing:
state.isAnimating = false. -/
def releaseLock (s : AppState) : AppState :=
  { s with isAnimating := false, pendingUnlock := none }

/-- goToPreviousSlide. -/
def goToPreviousSlide (s : AppState) : AppState :=
  if s.currentSlide > 1 then goToSlide (s.currentSlide - 1) s else s

/-- goToNextSlide. -/
def goToNextSlide (s : AppState) : AppState :=
  if s.currentSlide < s.totalSlides then goToSlide (s.currentSlide + 1) s else s

/-- Lookup in the slideIdMap object: exact string key match, first entry wins
(entries are prepended on insertion, so this is the JS last-write-wins). -/
def lookupId (sid : String) : List (String × Int) → Option Int
  | [] => none
  | (k, v) :: rest => if k = sid then some v else lookupId sid rest

/-- goToSlideById(slideId): resolve through the map; the JS truthiness test
if (slideNumber) drops only a zero (map values are always at least 1). -/
def goToSlideById (sid : String) (s : AppState) : AppState :=
  match lookupId sid s.slideIdMap with
  | some n => if n = 0 then s else goToSlide n s
  | none => s

/-- createSlideIdMap body: for each slide carrying an id attribute, record
slideIdMap[id] = index + 1; overwriting is modelled by prepending the new
entry, paired with first-match lookup. -/
def mkSlideIdMapFrom (k : Int) : List Slide → List (String × Int) → List (String × Int)
  | [], m => m
  | sl :: rest, m =>
    match sl.id with
    | some sid => mkSlideIdMapFrom (k + 1) rest ((sid, k) :: m)
    | none => mkSlideIdMapFrom (k + 1) rest m

/-- createSlideIdMap. -/
def mkSlideIdMap (l : List Slide) : List (String × Int) := mkSlideIdMapFrom 1 l []

/-! ## Step traces

goToSlide as the ordered list of primitive mutations its body performs, so
that statements about the order of its side effects are expressible.  Folding
applyStep over the trace recovers goToSlide exactly (goToSlide_eq_foldSteps). -/

/-- One primitive mutation performed by the body of goToSlide. -/
inductive Step where
  | setAnimating (b : Bool)
  | clearActive
  | setActive (n : Int)
  | setCurrent (n : Int)
  | navButtons
  | aria (n : Int)
  | pushURL (n : Int)
  | schedUnlock (ms : Nat)
deriving DecidableEq

/-- Semantics of one primitive mutation. -/
def applyStep (s : AppState) : Step → AppState
  | .setAnimating b => { s with isAnimating := b }
  | .clearActive => { s with slides := clearActiveSlides s.slides,
                             indicators := clearActiveIndicators s.indicators }
  | .setActive n => { s with slides := setActiveSlide s.slides n,
                             indicators := setActiveIndicator s.indicators n }
  | .setCurrent n => { s with currentSlide := n }
  | .navButtons => updateNavigationButtons s
  | .aria n => updateAriaAttributes n s
  | .pushURL n => updateURL n s
  | .schedUnlock ms => { s with pendingUnlock := some ms }

/-- The mutations goToSlide(n) performs on state s, in the order the source
performs them (empty when the guard returns early). -/
def goToSlideSteps (n : Int) (s : AppState) : List Step :=
  if s.isAnimating || !isValidSlideNumber s n then []
  else [Step.setAnimating true, Step.clearActive, Step.setActive n, Step.setCurrent n,
        Step.navButtons, Step.aria n, Step.pushURL n, Step.schedUnlock transitionDuration]

/-- The order in which the specification document lists the steps of
goToSlide: the isAnimating flag is listed after currentSlide is set. -/
def specOrderSteps (n : Int) : List Step :=
  [Step.clearActive, Step.setActive n, Step.setCurrent n, Step.setAnimating true,
   Step.navButtons, Step.aria n, Step.pushURL n, Step.schedUnlock transitionDuration]

/-! ## Wheel navigation -/

/-- A transition primitive: goToNextSlide or goToPreviousSlide. -/
inductive Dir where
  | next
  | prev
deriving DecidableEq

/-- The debounce callback body: positive deltaY goes next, otherwise previous. -/
def wheelDir (deltaY : Int) : Dir := if deltaY > 0 then Dir.next else Dir.prev

/-- Apply a transition primitive to the slider state. -/
def applyDir (s : AppState) : Dir → AppState
  | .next => goToNextSlide s
  | .prev => goToPreviousSlide s

/-- The wheel debounce machine over timestamped events (time in ms, deltaY):
the accumulator is the pending setTimeout (its fire time and captured deltaY).
A pending timeout whose fire time has been reached fires before the next
event is handled; each event clears any pending timeout and arms a new one
scrollThrottle ms ahead; at end of input the surviving timeout fires.
Returns the deltaY values whose callbacks ran, in order. -/
def runWheelAux : Option (Nat × Int) → List (Nat × Int) → List Int
  | none, [] => []
  | some (_, pdy), [] => [pdy]
  | none, (t, dy) :: rest => runWheelAux (some (t + scrollThrottle, dy)) rest
  | some (ft, pdy), (t, dy) :: rest =>
    if ft ≤ t then pdy :: runWheelAux (some (t + scrollThrottle, dy)) rest
    else runWheelAux (some (t + scrollThrottle, dy)) rest

/-- Run the wheel listener of index.js on a time-ordered event list. -/
def runWheel (events : List (Nat × Int)) : List Int := runWheelAux none events

/-- The transitions the wheel listener triggers on a time-ordered event list. -/
def wheelTransitions (events : List (Nat × Int)) : List Dir :=
  (runWheel events).map wheelDir

/-- The deltaY of the last event of a nonempty burst, with the head split off. -/
def lastDelta (dy0 : Int) : List (Nat × Int) → Int
  | [] => dy0
  | (_, dy) :: rest => lastDelta dy rest

/-- Two consecutive wheel events in time order and closer than the debounce
quiet period. -/
def wheelBurstRel (a b : Nat × Int) : Prop :=
  a.1 ≤ b.1 ∧ b.1 < a.1 + scrollThrottle

instance : DecidableRel wheelBurstRel := fun a b => by
  unfold wheelBurstRel; infer_instance

/-! ## Desktop wheel guards (script.js variant) -/

/-- The scroll metrics of the active slide's .slide-content region. -/
structure ScrollBox where
  scrollTop : Int
  scrollHeight : Int
  clientHeight : Int
deriving DecidableEq

/-- The guards at the top of the wheel listener in script.js: whether the
event reaches the debounce re-arm (and so may trigger a transition), given
window.innerWidth, the active slide's optional .slide-content metrics, and
the event's deltaY. -/
def wheelGuardPasses (innerWidth : Int) (content : Option ScrollBox) (deltaY : Int) : Bool :=
  if innerWidth ≤ mobileBreakpoint then false
  else
    match content with
    | some c =>
      let isAtTop : Bool := decide (c.scrollTop ≤ scrollSafezone)
      let isAtBottom : Bool := decide (c.scrollTop + c.clientHeight ≥ c.scrollHeight - scrollSafezone)
      if deltaY > 0 && !isAtBottom then false
      else if deltaY < 0 && !isAtTop then false
      else true
    | none => true

/-! ## Touch navigation (script.js variant) -/

/-- The closure variables of setupTouchNavigation. -/
structure TouchState where
  touchStartX : Int
  touchStartY : Int
  touchEndX : Int
  touchEndY : Int
  isSwiping : Bool
deriving DecidableEq

/-- The JS initial values of the closure variables. -/
def initTouchState : TouchState := { touchStartX := 0, touchStartY := 0,
                                     touchEndX := 0, touchEndY := 0, isSwiping := false }

/-- A touch event as the listeners see it: onControls is whether
event.target.closest found .navigation or .slide-indicators. -/
inductive TouchEvent where
  | start (onControls : Bool) (x y : Int)
  | move
  | endTouch (x y : Int)
deriving DecidableEq

/-- handleSwipe of script.js: horizontal-dominant displacement over the
threshold triggers next (left swipe) or previous (right swipe). -/
def handleSwipe (startX startY endX endY : Int) : Option Dir :=
  let diffX := startX - endX
  let diffY := startY - endY
  let absDiffX := diffX.natAbs
  let absDiffY := diffY.natAbs
  if absDiffX > absDiffY ∧ absDiffX > swipeThreshold then
    if diffX > 0 then some Dir.next else some Dir.prev
  else none

/-- One touch listener firing: the touchstart handler returns early on
controls, touchmove sets isSwiping, touchend guards on isSwiping, records the
end coordinates and runs handleSwipe.  The second component is the transition
handleSwipe requested, if any. -/
def touchStep (s : TouchState) : TouchEvent → TouchState × Option Dir
  | .start onControls x y =>
    if onControls then (s, none)
    else ({ s with touchStartX := x, touchStartY := y, isSwiping := false }, none)
  | .move => ({ s with isSwiping := true }, none)
  | .endTouch x y =>
    if s.isSwiping then
      ({ s with touchEndX := x, touchEndY := y },
       handleSwipe s.touchStartX s.touchStartY x y)
    else (s, none)

/-- Run the touch listeners over an event sequence, collecting the
transitions requested through handleSwipe, in order. -/
def runTouch (s : TouchState) : List TouchEvent → List Dir
  | [] => []
  | e :: rest =>
    match touchStep s e with
    | (s2, some d) => d :: runTouch s2 rest
    | (s2, none) => runTouch s2 rest

/-! ## Concrete states for witnesses -/

/-- Five slides with ids s1..s5, the first one active: the state right after
initialization of the scenario page of the specification. -/
def demoSlides : List Slide :=
  [{ id := some "s1", active := true }, { id := some "s2", active := false },
   { id := some "s3", active := false }, { id := some "s4", active := false },
   { id := some "s5", active := false }]

/-- Five indicators, the first one active. -/
def demoIndicators : List Indicator :=
  [{ active := true, ariaSelected := "true" }, { active := false, ariaSelected := "false" },
   { active := false, ariaSelected := "false" }, { active := false, ariaSelected := "false" },
   { active := false, ariaSelected := "false" }]

/-- The scenario state: five slides, at slide 1, not animating, map built by
createSlideIdMap. -/
def demo5 : AppState :=
  { currentSlide := 1, isAnimating := false, totalSlides := 5,
    slideIdMap := mkSlideIdMap demoSlides,
    slides := demoSlides, indicators := demoIndicators,
    prevBtn := { disabled := true, ariaDisabled := "true" },
    nextBtn := { disabled := false, ariaDisabled := "false" },
    urlHash := none, pendingUnlock := none }

/-- The scenario state moved to the last slide (nav-button scenario). -/
def demoLast : AppState := { demo5 with currentSlide := 5 }

/-- The scenario state with the transition lock held. -/
def demoAnimating : AppState := { demo5 with isAnimating := true }

/-- A one-slide state whose slide has no id attribute. -/
def demoNoId : AppState :=
  { demo5 with slides := [{ id := none, active := true }], totalSlides := 1 }

/-- A legitimate swipe gesture followed by a gesture starting on the
navigation controls: the second gesture reaches handleSwipe with the stale
start coordinates of the first. -/
def demoTouchEvents : List TouchEvent :=
  [TouchEvent.start false 200 0, TouchEvent.move, TouchEvent.endTouch 200 0,
   TouchEvent.start true 0 0, TouchEvent.move, TouchEvent.endTouch 100 0]

/-! ## Observation functions and invariants -/

/-- Number of slides carrying the active class. -/
def countActiveSlides (l : List Slide) : Nat := (l.filter fun sl => sl.active).length

/-- Number of indicators carrying the active class. -/
def countActiveIndicators (l : List Indicator) : Nat := (l.filter fun ind => ind.active).length

/-- The active flags of the slide list, in order. -/
def activeFlagsS (l : List Slide) : List Bool := l.map fun sl => sl.active

/-- The active flags of the indicator list, in order. -/
def activeFlagsI (l : List Indicator) : List Bool := l.map fun ind => ind.active

/-- The expected flag pattern: position counted from k is active exactly at
the position equal to n. -/
def oneHotFrom (k n : Int) : Nat → List Bool
  | 0 => []
  | len + 1 => decide (k = n) :: oneHotFrom (k + 1) n len

/-- The spec's central invariant: exactly one slide and one indicator carry
the active class, both at 1-based position currentSlide. -/
def exactOneActive (s : AppState) : Prop :=
  countActiveSlides s.slides = 1 ∧ countActiveIndicators s.indicators = 1 ∧
  activeFlagsS s.slides = oneHotFrom 1 s.currentSlide s.slides.length ∧
  activeFlagsI s.indicators = oneHotFrom 1 s.currentSlide s.indicators.length

/-- The DOM contract established by cacheElements: totalSlides is the number
of slides and indicators pair positionally with slides. -/
def domWellFormed (s : AppState) : Prop :=
  s.totalSlides = (s.slides.length : Int) ∧ s.indicators.length = s.slides.length

/-- The nav-button portion of the DOM contract: disabled and aria-disabled of
each button reflect being at the first/last slide. -/
def navButtonsCorrect (s : AppState) : Prop :=
  (s.prevBtn.disabled = true ↔ s.currentSlide = 1) ∧
  (s.prevBtn.ariaDisabled = "true" ↔ s.currentSlide = 1) ∧
  (s.nextBtn.disabled = true ↔ s.currentSlide = s.totalSlides) ∧
  (s.nextBtn.ariaDisabled = "true" ↔ s.currentSlide = s.totalSlides)

/-- The hash updateURL leaves behind, as a function of the slide list. -/
def pushHash (l : List Slide) (n : Int) (old : Option String) : Option String :=
  match slideAt l n with
  | some sl =>
    match sl.id with
    | some sid => some sid
    | none => old
  | none => old

/-! ## Helper lemmas -/

lemma jsBoolString_eq_true (b : Bool) : jsBoolString b = "true" ↔ b = true := by
  cases b <;> decide

lemma clearActiveSlides_cons (hd : Slide) (tl : List Slide) :
    clearActiveSlides (hd :: tl) = { hd with active := false } :: clearActiveSlides tl := rfl

lemma clearActiveIndicators_cons (hd : Indicator) (tl : List Indicator) :
    clearActiveIndicators (hd :: tl) = { hd with active := false } :: clearActiveIndicators tl := rfl

lemma clearActiveSlides_length (l : List Slide) : (clearActiveSlides l).length = l.length := by
  simp [clearActiveSlides]

lemma clearActiveIndicators_length (l : List Indicator) :
    (clearActiveIndicators l).length = l.length := by
  simp [clearActiveIndicators]

lemma setActiveSlideFrom_length (l : List Slide) :
    ∀ k n : Int, (setActiveSlideFrom k n l).length = l.length := by
  induction l with
  | nil => intro k n; rfl
  | cons hd tl ih => intro k n; simp [setActiveSlideFrom, ih]

lemma setActiveIndicatorFrom_length (l : List Indicator) :
    ∀ k n : Int, (setActiveIndicatorFrom k n l).length = l.length := by
  induction l with
  | nil => intro k n; rfl
  | cons hd tl ih => intro k n; simp [setActiveIndicatorFrom, ih]

lemma updateAriaFrom_length (l : List Indicator) :
    ∀ k n : Int, (updateAriaFrom k n l).length = l.length := by
  induction l with
  | nil => intro k n; rfl
  | cons hd tl ih => intro k n; simp [updateAriaFrom, ih]

lemma clearActiveSlides_inactive (l : List Slide) :
    ∀ sl ∈ clearActiveSlides l, sl.active = false := by
  intro sl hsl
  simp only [clearActiveSlides, List.mem_map] at hsl
  obtain ⟨a, _, rfl⟩ := hsl
  rfl

lemma clearActiveIndicators_inactive (l : List Indicator) :
    ∀ ind ∈ clearActiveIndicators l, ind.active = false := by
  intro ind hind
  simp only [clearActiveIndicators, List.mem_map] at hind
  obtain ⟨a, _, rfl⟩ := hind
  rfl

lemma countActiveSlides_cons (x : Slide) (xs : List Slide) :
    countActiveSlides (x :: xs) = (if x.active = true then 1 else 0) + countActiveSlides xs := by
  simp only [countActiveSlides, List.filter_cons]
  split_ifs <;> simp [Nat.add_comm]

lemma countActiveIndicators_cons (x : Indicator) (xs : List Indicator) :
    countActiveIndicators (x :: xs) =
      (if x.active = true then 1 else 0) + countActiveIndicators xs := by
  simp only [countActiveIndicators, List.filter_cons]
  split_ifs <;> simp [Nat.add_comm]

lemma countActiveSlides_setFrom (l : List Slide) :
    ∀ k n : Int, (∀ sl ∈ l, sl.active = false) →
    countActiveSlides (setActiveSlideFrom k n l) =
      if k ≤ n ∧ n < k + (l.length : Int) then 1 else 0 := by
  induction l with
  | nil =>
    intro k n _
    simp only [setActiveSlideFrom, countActiveSlides, List.filter_nil, List.length_nil]
    split_ifs with h
    · exfalso; push_cast at h; omega
    · rfl
  | cons hd tl ih =>
    intro k n hall
    have hhd : hd.active = false := hall hd (by simp)
    have htl : ∀ sl ∈ tl, sl.active = false := fun sl h => hall sl (by simp [h])
    simp only [setActiveSlideFrom]
    rw [countActiveSlides_cons, ih (k + 1) n htl]
    by_cases hk : k = n <;>
      simp only [hk, if_pos, if_neg, List.length_cons] <;>
      split_ifs <;> push_cast at * <;> simp_all <;> omega

lemma countActiveIndicators_setFrom (l : List Indicator) :
    ∀ k n : Int, (∀ ind ∈ l, ind.active = false) →
    countActiveIndicators (setActiveIndicatorFrom k n l) =
      if k ≤ n ∧ n < k + (l.length : Int) then 1 else 0 := by
  induction l with
  | nil =>
    intro k n _
    simp only [setActiveIndicatorFrom, countActiveIndicators, List.filter_nil, List.length_nil]
    split_ifs with h
    · exfalso; push_cast at h; omega
    · rfl
  | cons hd tl ih =>
    intro k n hall
    have hhd : hd.active = false := hall hd (by simp)
    have htl : ∀ ind ∈ tl, ind.active = false := fun ind h => hall ind (by simp [h])
    simp only [setActiveIndicatorFrom]
    rw [countActiveIndicators_cons, ih (k + 1) n htl]
    by_cases hk : k = n <;>
      simp only [hk, if_pos, if_neg, List.length_cons] <;>
      split_ifs <;> push_cast at * <;> simp_all <;> omega

lemma activeFlagsS_setFrom (l : List Slide) :
    ∀ k n : Int, (∀ sl ∈ l, sl.active = false) →
    activeFlagsS (setActiveSlideFrom k n l) = oneHotFrom k n l.length := by
  induction l with
  | nil => intro k n _; rfl
  | cons hd tl ih =>
    intro k n hall
    have hhd : hd.active = false := hall hd (by simp)
    have htl : ∀ sl ∈ tl, sl.active = false := fun sl h => hall sl (by simp [h])
    simp only [setActiveSlideFrom, activeFlagsS, List.map_cons, List.length_cons, oneHotFrom]
    have ihx := ih (k + 1) n htl
    simp only [activeFlagsS] at ihx
    rw [ihx]
    by_cases hk : k = n <;> simp [hk, hhd]

lemma activeFlagsI_setFrom (l : List Indicator) :
    ∀ k n : Int, (∀ ind ∈ l, ind.active = false) →
    activeFlagsI (setActiveIndicatorFrom k n l) = oneHotFrom k n l.length := by
  induction l with
  | nil => intro k n _; rfl
  | cons hd tl ih =>
    intro k n hall
    have hhd : hd.active = false := hall hd (by simp)
    have htl : ∀ ind ∈ tl, ind.active = false := fun ind h => hall ind (by simp [h])
    simp only [setActiveIndicatorFrom, activeFlagsI, List.map_cons, List.length_cons, oneHotFrom]
    have ihx := ih (k + 1) n htl
    simp only [activeFlagsI] at ihx
    rw [ihx]
    by_cases hk : k = n <;> simp [hk, hhd]

lemma activeFlagsI_updateAriaFrom (l : List Indicator) :
    ∀ k n : Int, activeFlagsI (updateAriaFrom k n l) = activeFlagsI l := by
  induction l with
  | nil => intro k n; rfl
  | cons hd tl ih =>
    intro k n
    simp only [updateAriaFrom, activeFlagsI, List.map_cons]
    have ihx := ih (k + 1) n
    simp only [activeFlagsI] at ihx
    rw [ihx]

lemma countActiveIndicators_updateAriaFrom (l : List Indicator) :
    ∀ k n : Int, countActiveIndicators (updateAriaFrom k n l) = countActiveIndicators l := by
  induction l with
  | nil => intro k n; rfl
  | cons hd tl ih =>
    intro k n
    simp only [updateAriaFrom]
    rw [countActiveIndicators_cons, countActiveIndicators_cons, ih (k + 1) n]

lemma slideAtFrom_setClear_id (l : List Slide) :
    ∀ k n m : Int,
    (slideAtFrom k m (setActiveSlideFrom k n (clearActiveSlides l))).map Slide.id
      = (slideAtFrom k m l).map Slide.id := by
  induction l with
  | nil => intro k n m; rfl
  | cons hd tl ih =>
    intro k n m
    simp only [clearActiveSlides_cons, setActiveSlideFrom, slideAtFrom]
    by_cases h2 : k = m
    · rw [if_pos h2, if_pos h2]
      by_cases h1 : k = n
      · rw [if_pos h1]; rfl
      · rw [if_neg h1]; rfl
    · rw [if_neg h2, if_neg h2]
      exact ih (k + 1) n m

lemma slideAtFrom_bounds (l : List Slide) :
    ∀ (k n : Int) (sl : Slide), slideAtFrom k n l = some sl →
      k ≤ n ∧ n < k + (l.length : Int) := by
  induction l with
  | nil => intro k n sl h; exact absurd h (by simp [slideAtFrom])
  | cons hd tl ih =>
    intro k n sl h
    simp only [slideAtFrom] at h
    by_cases hk : k = n
    · simp only [List.length_cons]; push_cast; omega
    · rw [if_neg hk] at h
      have := ih (k + 1) n sl h
      simp only [List.length_cons]; push_cast at *; omega

lemma mkSlideIdMapFrom_sound (l : List Slide) :
    ∀ (k : Int) (m : List (String × Int)) (sid : String) (v : Int),
      (sid, v) ∈ mkSlideIdMapFrom k l m →
      (sid, v) ∈ m ∨ (k ≤ v ∧ ∃ sl, slideAtFrom k v l = some sl ∧ sl.id = some sid) := by
  induction l with
  | nil => intro k m sid v h; exact Or.inl h
  | cons hd tl ih =>
    intro k m sid v h
    cases hid : hd.id with
    | some sid0 =>
      simp only [mkSlideIdMapFrom, hid] at h
      rcases ih (k + 1) ((sid0, k) :: m) sid v h with hm | ⟨hle, sl, hat, hslid⟩
      · rcases List.mem_cons.mp hm with heq | hm2
        · right
          have hs : sid = sid0 ∧ v = k := by
            have := Prod.mk.injEq sid v sid0 k ▸ heq
            exact ⟨congrArg Prod.fst heq, congrArg Prod.snd heq⟩
          refine ⟨by omega, hd, ?_, ?_⟩
          · simp [slideAtFrom, hs.2]
          · rw [hid, hs.1]
        · exact Or.inl hm2
      · right
        refine ⟨by omega, sl, ?_, hslid⟩
        have hkv : ¬ k = v := by omega
        simp only [slideAtFrom, if_neg hkv]
        exact hat
    | none =>
      simp only [mkSlideIdMapFrom, hid] at h
      rcases ih (k + 1) m sid v h with hm | ⟨hle, sl, hat, hslid⟩
      · exact Or.inl hm
      · right
        refine ⟨by omega, sl, ?_, hslid⟩
        have hkv : ¬ k = v := by omega
        simp only [slideAtFrom, if_neg hkv]
        exact hat

lemma updateURL_eq (n : Int) (s : AppState) :
    updateURL n s = { s with urlHash := pushHash s.slides n s.urlHash } := by
  unfold updateURL pushHash
  split
  · split
    · rfl
    · rfl
  · rfl

lemma pushHash_of_bind_none (l : List Slide) (n : Int) (old : Option String)
    (h : (slideAt l n).bind Slide.id = none) : pushHash l n old = old := by
  unfold pushHash
  split
  · rename_i sl hat
    split
    · rename_i sid hid
      rw [hat] at h
      simp only [Option.bind] at h
      rw [hid] at h
      exact Option.noConfusion h
    · rfl
  · rfl

lemma goToSlide_noop (n : Int) (s : AppState)
    (h : (s.isAnimating || !isValidSlideNumber s n) = true) : goToSlide n s = s := by
  simp [goToSlide, h]

lemma goToSlideSteps_noop (n : Int) (s : AppState)
    (h : (s.isAnimating || !isValidSlideNumber s n) = true) : goToSlideSteps n s = [] := by
  simp [goToSlideSteps, h]

lemma goToSlide_run (n : Int) (s : AppState) (ha : s.isAnimating = false)
    (hv : isValidSlideNumber s n = true) :
    goToSlide n s =
      { currentSlide := n,
        isAnimating := true,
        totalSlides := s.totalSlides,
        slideIdMap := s.slideIdMap,
        slides := setActiveSlide (clearActiveSlides s.slides) n,
        indicators := updateAriaFrom 1 n (setActiveIndicator (clearActiveIndicators s.indicators) n),
        prevBtn := { disabled := decide (n = 1), ariaDisabled := jsBoolString (decide (n = 1)) },
        nextBtn := { disabled := decide (n = s.totalSlides),
                     ariaDisabled := jsBoolString (decide (n = s.totalSlides)) },
        urlHash := pushHash (setActiveSlide (clearActiveSlides s.slides) n) n s.urlHash,
        pendingUnlock := some transitionDuration } := by
  simp [goToSlide, ha, hv, updateNavigationButtons, updateAriaAttributes, updateURL_eq]

lemma goToSlide_eq_foldSteps (n : Int) (s : AppState) :
    goToSlide n s = (goToSlideSteps n s).foldl applyStep s := by
  cases hb : (s.isAnimating || !isValidSlideNumber s n) with
  | true => simp [goToSlide, goToSlideSteps, hb]
  | false => simp [goToSlide, goToSlideSteps, hb, applyStep, updateAriaAttributes]

lemma releaseLock_currentSlide (s : AppState) :
    (releaseLock s).currentSlide = s.currentSlide := rfl

lemma exactOneActive_releaseLock (s : AppState) :
    exactOneActive (releaseLock s) ↔ exactOneActive s := Iff.rfl

lemma isValid_of_bounds (s : AppState) (n : Int) (h1 : 1 ≤ n) (h2 : n ≤ s.totalSlides) :
    isValidSlideNumber s n = true := by
  simp [isValidSlideNumber]
  omega

lemma goToSlide_establishes (n : Int) (s : AppState) (ha : s.isAnimating = false)
    (hv : isValidSlideNumber s n = true) (hwf : domWellFormed s) :
    exactOneActive (goToSlide n s) ∧ domWellFormed (goToSlide n s) := by
  obtain ⟨hts, hil⟩ := hwf
  have hvalid : 1 ≤ n ∧ n ≤ s.totalSlides := by
    simp [isValidSlideNumber] at hv
    omega
  rw [goToSlide_run n s ha hv]
  have hlenS : (setActiveSlide (clearActiveSlides s.slides) n).length = s.slides.length := by
    rw [setActiveSlide, setActiveSlideFrom_length, clearActiveSlides_length]
  have hlenI : (updateAriaFrom 1 n (setActiveIndicator (clearActiveIndicators s.indicators) n)).length
      = s.indicators.length := by
    rw [updateAriaFrom_length, setActiveIndicator, setActiveIndicatorFrom_length,
        clearActiveIndicators_length]
  constructor
  · refine ⟨?_, ?_, ?_, ?_⟩
    · show countActiveSlides (setActiveSlide (clearActiveSlides s.slides) n) = 1
      rw [setActiveSlide,
          countActiveSlides_setFrom (clearActiveSlides s.slides) 1 n
            (clearActiveSlides_inactive s.slides),
          clearActiveSlides_length, if_pos]
      refine ⟨hvalid.1, ?_⟩
      omega
    · show countActiveIndicators
        (updateAriaFrom 1 n (setActiveIndicator (clearActiveIndicators s.indicators) n)) = 1
      rw [countActiveIndicators_updateAriaFrom, setActiveIndicator,
          countActiveIndicators_setFrom (clearActiveIndicators s.indicators) 1 n
            (clearActiveIndicators_inactive s.indicators),
          clearActiveIndicators_length, if_pos]
      refine ⟨hvalid.1, ?_⟩
      omega
    · show activeFlagsS (setActiveSlide (clearActiveSlides s.slides) n) = _
      rw [hlenS, setActiveSlide,
          activeFlagsS_setFrom (clearActiveSlides s.slides) 1 n
            (clearActiveSlides_inactive s.slides),
          clearActiveSlides_length]
    · show activeFlagsI
        (updateAriaFrom 1 n (setActiveIndicator (clearActiveIndicators s.indicators) n)) = _
      rw [hlenI, activeFlagsI_updateAriaFrom, setActiveIndicator,
          activeFlagsI_setFrom (clearActiveIndicators s.indicators) 1 n
            (clearActiveIndicators_inactive s.indicators),
          clearActiveIndicators_length, hil]
  · exact ⟨by rw [hlenS]; exact hts, by rw [hlenS, hlenI]; exact hil⟩

lemma lookupId_mem (m : List (String × Int)) :
    ∀ (sid : String) (v : Int), lookupId sid m = some v → (sid, v) ∈ m := by
  induction m with
  | nil => intro sid v h; exact absurd h (by simp [lookupId])
  | cons hd tl ih =>
    intro sid v h
    obtain ⟨k, w⟩ := hd
    simp only [lookupId] at h
    by_cases hk : k = sid
    · rw [if_pos hk] at h
      obtain rfl : w = v := by injection h
      subst hk
      exact List.mem_cons_self _ _
    · rw [if_neg hk] at h
      exact List.mem_cons_of_mem _ (ih sid v h)

/-! ## Claims -/

/-- Claim C1: for every valid slide index n, after goToSlide(n) completes and
the transition lock is released, exactly one slide and exactly one indicator
carry the active status, both at index n, which equals currentSlide; and
outside the transient window inside a transition the exactly-one-active
invariant is preserved by every goToSlide call and by the lock release. -/
theorem c1_active_invariant :
    (∀ (s : AppState) (n : Int), s.isAnimating = false → 1 ≤ n → n ≤ s.totalSlides →
      domWellFormed s →
      (releaseLock (goToSlide n s)).currentSlide = n ∧
      exactOneActive (releaseLock (goToSlide n s))) ∧
    (∀ (s : AppState) (m : Int), domWellFormed s → exactOneActive s →
      domWellFormed (goToSlide m s) ∧ exactOneActive (goToSlide m s)) ∧
    (∀ s : AppState, exactOneActive s → exactOneActive (releaseLock s)) := by
  refine ⟨?_, ?_, ?_⟩
  · intro s n ha h1 h2 hwf
    have hv : isValidSlideNumber s n = true := isValid_of_bounds s n h1 h2
    constructor
    · rw [releaseLock_currentSlide, goToSlide_run n s ha hv]
    · rw [exactOneActive_releaseLock]
      exact (goToSlide_establishes n s ha hv hwf).1
  · intro s m hwf hinv
    cases hb : (s.isAnimating || !isValidSlideNumber s m) with
    | true => rw [goToSlide_noop m s hb]; exact ⟨hwf, hinv⟩
    | false =>
      have ha : s.isAnimating = false := by
        rcases Bool.or_eq_false_iff.mp hb with ⟨h, _⟩
        exact h
      have hv : isValidSlideNumber s m = true := by
        rcases Bool.or_eq_false_iff.mp hb with ⟨_, h⟩
        simpa using h
      have := goToSlide_establishes m s ha hv hwf
      exact ⟨this.2, this.1⟩
  · intro s h
    rw [exactOneActive_releaseLock]
    exact h

/-- Witness for C1 at the five-slide scenario state, navigating to slide 3. -/
theorem c1_active_invariant_witness :
    (releaseLock (goToSlide 3 demo5)).currentSlide = 3 ∧
    exactOneActive (releaseLock (goToSlide 3 demo5)) :=
  c1_active_invariant.1 demo5 3 (by decide) (by decide) (by decide) ⟨by decide, by decide⟩

/-- Claim C2: goToSlide is a no-op, with no side effects at all, when the
lock is held or the target index is outside 1..totalSlides; and a second
goToSlide call issued right after a successful one is dropped. -/
theorem c2_noop_guards :
    (∀ (s : AppState) (n : Int), s.isAnimating = true ∨ n < 1 ∨ s.totalSlides < n →
      goToSlide n s = s ∧ goToSlideSteps n s = []) ∧
    (∀ (s : AppState) (n m : Int), s.isAnimating = false → isValidSlideNumber s n = true →
      goToSlide m (goToSlide n s) = goToSlide n s) := by
  constructor
  · intro s n h
    have hg : (s.isAnimating || !isValidSlideNumber s n) = true := by
      rcases h with h | h | h
      · simp [h]
      · have hval : isValidSlideNumber s n = false := by
          simp [isValidSlideNumber]
          omega
        simp [hval]
      · have hval : isValidSlideNumber s n = false := by
          simp [isValidSlideNumber]
          omega
        simp [hval]
    exact ⟨goToSlide_noop n s hg, goToSlideSteps_noop n s hg⟩
  · intro s n m ha hv
    have hlock : (goToSlide n s).isAnimating = true := by
      rw [goToSlide_run n s ha hv]
    exact goToSlide_noop m _ (by simp [hlock])

/-- Witness for C2: locked call, out-of-range call, and a dropped second call. -/
theorem c2_noop_guards_witness :
    goToSlide 2 demoAnimating = demoAnimating ∧
    goToSlide 9 demo5 = demo5 ∧
    goToSlide 4 (goToSlide 2 demo5) = goToSlide 2 demo5 :=
  ⟨(c2_noop_guards.1 demoAnimating 2 (Or.inl (by decide))).1,
   (c2_noop_guards.1 demo5 9 (Or.inr (Or.inr (by decide)))).1,
   c2_noop_guards.2 demo5 2 4 (by decide) (by decide)⟩

/-- Counterexample for C3: the trace of mutations goToSlide(2) actually
performs differs from the order the spec states (the source sets
isAnimating = true first, before clearing the active classes, while the spec
lists it only after currentSlide is set). -/
theorem c3_order_counterexample : goToSlideSteps 2 demo5 ≠ specOrderSteps 2 := by
  decide

/-- Amended claim C3: goToSlide performs exactly the steps the spec lists,
but sets isAnimating = true first, before clearing the active classes; the
remaining steps follow in the spec's order (clear active, set active at n,
set currentSlide, nav buttons, aria, URL push, schedule unlock); folding the
trace reproduces goToSlide exactly; the unlock is scheduled with the fixed
600 ms delay; and the URL push is a no-op when the target slide has no id. -/
theorem c3_order_amended :
    (∀ (s : AppState) (n : Int), s.isAnimating = false → isValidSlideNumber s n = true →
      goToSlideSteps n s =
        [Step.setAnimating true, Step.clearActive, Step.setActive n, Step.setCurrent n,
         Step.navButtons, Step.aria n, Step.pushURL n, Step.schedUnlock transitionDuration] ∧
      (goToSlide n s).pendingUnlock = some transitionDuration ∧
      transitionDuration = 600) ∧
    (∀ (n : Int) (s : AppState), goToSlide n s = (goToSlideSteps n s).foldl applyStep s) ∧
    (∀ (n : Int) (s : AppState), (slideAt s.slides n).bind Slide.id = none →
      updateURL n s = s) := by
  refine ⟨?_, ?_, ?_⟩
  · intro s n ha hv
    refine ⟨by simp [goToSlideSteps, ha, hv], ?_, rfl⟩
    rw [goToSlide_run n s ha hv]
  · intro n s
    exact goToSlide_eq_foldSteps n s
  · intro n s h
    rw [updateURL_eq, pushHash_of_bind_none s.slides n s.urlHash h]

/-- Witness for amended C3 at the scenario state (valid target, and the URL
no-op exercised on a slide without an id). -/
theorem c3_order_amended_witness :
    (goToSlideSteps 2 demo5 =
      [Step.setAnimating true, Step.clearActive, Step.setActive 2, Step.setCurrent 2,
       Step.navButtons, Step.aria 2, Step.pushURL 2, Step.schedUnlock transitionDuration] ∧
      (goToSlide 2 demo5).pendingUnlock = some transitionDuration ∧
      transitionDuration = 600) ∧
    updateURL 1 demoNoId = demoNoId :=
  ⟨c3_order_amended.1 demo5 2 (by decide) (by decide),
   c3_order_amended.2.2 1 demoNoId (by decide)⟩

/-- Claim C4: goToPreviousSlide and goToNextSlide behave exactly as
goToSlide(currentSlide - 1) and goToSlide(currentSlide + 1), and are no-ops
at the first and last slide respectively. -/
theorem c4_prev_next_wrappers :
    (∀ s : AppState, goToPreviousSlide s = goToSlide (s.currentSlide - 1) s) ∧
    (∀ s : AppState, goToNextSlide s = goToSlide (s.currentSlide + 1) s) ∧
    (∀ s : AppState, s.currentSlide = 1 → goToPreviousSlide s = s) ∧
    (∀ s : AppState, s.currentSlide = s.totalSlides → goToNextSlide s = s) := by
  refine ⟨?_, ?_, ?_, ?_⟩
  · intro s
    unfold goToPreviousSlide
    split
    · rfl
    · rename_i h
      have hval : isValidSlideNumber s (s.currentSlide - 1) = false := by
        simp [isValidSlideNumber]
        omega
      rw [goToSlide_noop _ _ (by simp [hval])]
  · intro s
    unfold goToNextSlide
    split
    · rfl
    · rename_i h
      have hval : isValidSlideNumber s (s.currentSlide + 1) = false := by
        simp [isValidSlideNumber]
        omega
      rw [goToSlide_noop _ _ (by simp [hval])]
  · intro s h
    simp [goToPreviousSlide, h]
  · intro s h
    simp [goToNextSlide, h]

/-- Witness for C4: at slide 1 going previous is a no-op, at the last slide
going next is a no-op. -/
theorem c4_prev_next_wrappers_witness :
    goToPreviousSlide demo5 = demo5 ∧ goToNextSlide demoLast = demoLast :=
  ⟨c4_prev_next_wrappers.2.2.1 demo5 (by decide),
   c4_prev_next_wrappers.2.2.2 demoLast (by decide)⟩

/-- Claim C5: with the slideIdMap built by createSlideIdMap, goToSlideById on
a mapped id navigates (when unlocked) to the mapped position and pushes that
id as the URL hash; on an unmapped id the state is unchanged. -/
theorem c5_goToSlideById :
    (∀ (s : AppState) (sid : String) (n : Int),
      s.slideIdMap = mkSlideIdMap s.slides →
      s.totalSlides = (s.slides.length : Int) →
      s.isAnimating = false →
      lookupId sid s.slideIdMap = some n →
      (goToSlideById sid s).currentSlide = n ∧
      (goToSlideById sid s).urlHash = some sid) ∧
    (∀ (s : AppState) (sid : String),
      lookupId sid s.slideIdMap = none → goToSlideById sid s = s) := by
  constructor
  · intro s sid n hmap htot ha hlk
    have hmem : (sid, n) ∈ mkSlideIdMap s.slides := by
      rw [← hmap]
      exact lookupId_mem _ sid n hlk
    rcases mkSlideIdMapFrom_sound s.slides 1 [] sid n hmem with hm | ⟨hle, sl, hat, hslid⟩
    · exact absurd hm (List.not_mem_nil _)
    · have hbounds := slideAtFrom_bounds s.slides 1 n sl hat
      have hv : isValidSlideNumber s n = true := by
        simp [isValidSlideNumber]
        omega
      have hby : goToSlideById sid s = goToSlide n s := by
        unfold goToSlideById
        rw [hlk]
        show (if n = 0 then s else goToSlide n s) = goToSlide n s
        rw [if_neg (show ¬ n = 0 by omega)]
      rw [hby, goToSlide_run n s ha hv]
      refine ⟨rfl, ?_⟩
      show pushHash (setActiveSlide (clearActiveSlides s.slides) n) n s.urlHash = some sid
      have hid : (slideAt (setActiveSlide (clearActiveSlides s.slides) n) n).map Slide.id
          = (slideAt s.slides n).map Slide.id := slideAtFrom_setClear_id s.slides 1 n n
      rw [show slideAt s.slides n = some sl from hat] at hid
      cases hat2 : slideAt (setActiveSlide (clearActiveSlides s.slides) n) n with
      | none => rw [hat2] at hid; exact absurd hid (by simp)
      | some sl2 =>
        rw [hat2] at hid
        simp only [Option.map] at hid
        have hid2 : sl2.id = some sid := by
          have := Option.some.inj hid
          rw [this, hslid]
        unfold pushHash
        rw [hat2]
        simp only [hid2]
  · intro s sid h
    unfold goToSlideById
    rw [h]

/-- Witness for C5: the spec scenario, five slides with ids s1..s5,
goToSlideById on s3 lands on slide 3 with hash s3. -/
theorem c5_goToSlideById_witness :
    (goToSlideById "s3" demo5).currentSlide = 3 ∧
    (goToSlideById "s3" demo5).urlHash = some "s3" :=
  c5_goToSlideById.1 demo5 "s3" 3 rfl (by decide) (by decide) (by decide)

lemma runWheelAux_burst (l : List (Nat × Int)) :
    ∀ (t0 : Nat) (dy0 : Int), List.Chain' wheelBurstRel ((t0, dy0) :: l) →
      runWheelAux (some (t0 + scrollThrottle, dy0)) l = [lastDelta dy0 l] := by
  induction l with
  | nil => intro t0 dy0 _; rfl
  | cons e rest ih =>
    intro t0 dy0 hch
    obtain ⟨t1, dy1⟩ := e
    have h1 : wheelBurstRel (t0, dy0) (t1, dy1) := (List.chain'_cons.mp hch).1
    have h2 : List.Chain' wheelBurstRel ((t1, dy1) :: rest) := (List.chain'_cons.mp hch).2
    have hlt : ¬ (t0 + scrollThrottle ≤ t1) := not_le.mpr h1.2
    simp only [runWheelAux, if_neg hlt]
    exact ih t1 dy1 h2

/-- Claim C6: wheel navigation is a trailing-edge debounce with a 50 ms quiet
period: in a burst of wheel events each following its predecessor in time by
less than scrollThrottle, only the last event's callback fires, triggering a
single transition whose direction follows the sign of its deltaY. -/
theorem c6_wheel_debounce :
    ∀ (t0 : Nat) (dy0 : Int) (rest : List (Nat × Int)),
      List.Chain' wheelBurstRel ((t0, dy0) :: rest) →
      wheelTransitions ((t0, dy0) :: rest) = [wheelDir (lastDelta dy0 rest)] := by
  intro t0 dy0 rest hch
  unfold wheelTransitions runWheel
  simp only [runWheelAux]
  rw [runWheelAux_burst rest t0 dy0 hch]
  rfl

/-- Witness for C6: five wheel events with deltaY 120 inside 10 ms yield
exactly one next transition. -/
theorem c6_wheel_debounce_witness :
    wheelTransitions [(0, 120), (2, 120), (4, 120), (6, 120), (8, 120)] = [Dir.next] := by
  have h := c6_wheel_debounce 0 120 [(2, 120), (4, 120), (6, 120), (8, 120)]
    (by simp [List.chain'_cons, wheelBurstRel, scrollThrottle])
  simpa [lastDelta, wheelDir] using h

/-- Claim C7: the desktop wheel guards: at or below the 768 px breakpoint a
wheel event never reaches the transition debounce; with an inner scrollable
region present, a downward event passes exactly when the region is within
800 px of its bottom edge and an upward event exactly when within 800 px of
its top edge. -/
theorem c7_wheel_guards :
    (∀ (w : Int) (c : Option ScrollBox) (dy : Int), w ≤ mobileBreakpoint →
      wheelGuardPasses w c dy = false) ∧
    (∀ (w : Int) (box : ScrollBox) (dy : Int), mobileBreakpoint < w → 0 < dy →
      (wheelGuardPasses w (some box) dy = true ↔
        box.scrollTop + box.clientHeight ≥ box.scrollHeight - scrollSafezone)) ∧
    (∀ (w : Int) (box : ScrollBox) (dy : Int), mobileBreakpoint < w → dy < 0 →
      (wheelGuardPasses w (some box) dy = true ↔ box.scrollTop ≤ scrollSafezone)) := by
  refine ⟨?_, ?_, ?_⟩
  · intro w c dy h
    simp [wheelGuardPasses, h]
  · intro w box dy hw hdy
    have hw2 : ¬ w ≤ mobileBreakpoint := by omega
    have hdy2 : ¬ dy < 0 := by omega
    simp only [wheelGuardPasses, if_neg hw2]
    by_cases hb : box.scrollTop + box.clientHeight ≥ box.scrollHeight - scrollSafezone <;>
      simp [hb, hdy, hdy2]
  · intro w box dy hw hdy
    have hw2 : ¬ w ≤ mobileBreakpoint := by omega
    have hdy2 : ¬ 0 < dy := by omega
    simp only [wheelGuardPasses, if_neg hw2]
    by_cases ht : box.scrollTop ≤ scrollSafezone <;>
      simp [ht, hdy, hdy2]

/-- Witness for C7: a narrow viewport blocks the event; far from the bottom a
downward event is consumed; far from the top an upward event is consumed. -/
theorem c7_wheel_guards_witness :
    wheelGuardPasses 500 none 120 = false ∧
    (wheelGuardPasses 1000 (some { scrollTop := 0, scrollHeight := 3000, clientHeight := 500 })
        120 = true ↔
      (0 : Int) + 500 ≥ 3000 - scrollSafezone) ∧
    (wheelGuardPasses 1000 (some { scrollTop := 900, scrollHeight := 3000, clientHeight := 500 })
        (-120) = true ↔
      (900 : Int) ≤ scrollSafezone) :=
  ⟨c7_wheel_guards.1 500 none 120 (by decide),
   c7_wheel_guards.2.1 1000 { scrollTop := 0, scrollHeight := 3000, clientHeight := 500 } 120
     (by decide) (by decide),
   c7_wheel_guards.2.2 1000 { scrollTop := 900, scrollHeight := 3000, clientHeight := 500 } (-120)
     (by decide) (by decide)⟩

/-- Counterexample for C8: a gesture whose touch-start lands on the
navigation controls can still trigger a slide transition through the swipe
path: the start handler returns early, a touchmove arms isSwiping, and the
touch-end runs handleSwipe with the stale start coordinates of the previous
gesture, here yielding a next transition that actually moves the scenario
slider from slide 1 to slide 2. -/
theorem c8_touch_counterexample :
    runTouch initTouchState demoTouchEvents = [Dir.next] ∧
    ((runTouch initTouchState demoTouchEvents).foldl applyDir demo5).currentSlide = 2 :=
  ⟨by decide, by decide⟩

/-- Amended claim C8: a touch-start on the navigation controls or indicators
is completely ignored by the touch-start handler — no coordinates are
recorded, no state changes, nothing is triggered at that step — but the
corresponding touch-end is not filtered, so the touch sequence can still
trigger a transition through handleSwipe using start coordinates recorded
before the gesture. -/
theorem c8_touch_start_ignored :
    (∀ (s : TouchState) (x y : Int), touchStep s (TouchEvent.start true x y) = (s, none)) ∧
    runTouch initTouchState demoTouchEvents ≠ [] := by
  constructor
  · intro s x y
    rfl
  · decide

/-- Claim C9: the navigation buttons reflect the range ends: prevBtn is
disabled (and aria-disabled) exactly at the first slide and nextBtn exactly
at the last, after updateNavigationButtons (as init calls it), after any
successful goToSlide, and across a lock release. -/
theorem c9_nav_buttons :
    (∀ s : AppState, navButtonsCorrect (updateNavigationButtons s)) ∧
    (∀ (s : AppState) (n : Int), s.isAnimating = false → isValidSlideNumber s n = true →
      navButtonsCorrect (goToSlide n s)) ∧
    (∀ s : AppState, navButtonsCorrect s → navButtonsCorrect (releaseLock s)) := by
  refine ⟨?_, ?_, ?_⟩
  · intro s
    unfold navButtonsCorrect updateNavigationButtons
    simp [jsBoolString_eq_true]
  · intro s n ha hv
    rw [goToSlide_run n s ha hv]
    unfold navButtonsCorrect
    simp [jsBoolString_eq_true]
  · intro s h
    exact h

/-- Witness for C9: at the last slide of the scenario the next button is
disabled with aria-disabled true. -/
theorem c9_nav_buttons_witness :
    (goToSlide 5 demo5).nextBtn.disabled = true ∧
    (goToSlide 5 demo5).nextBtn.ariaDisabled = "true" := by
  have h := c9_nav_buttons.2.1 demo5 5 (by decide) (by decide)
  exact ⟨h.2.2.1.mpr (by decide), h.2.2.2.mpr (by decide)⟩

/-- Claim C10 (implicit): goToSlide(currentSlide) with the lock free is not
filtered: it re-runs the full mutation trace (active classes re-applied, URL
re-pushed), changes the state (the lock is taken, unlocking scheduled with
the 600 ms delay), and blocks every further navigation until release. -/
theorem c10_same_slide_not_filtered :
    ∀ s : AppState, s.isAnimating = false → 1 ≤ s.currentSlide →
      s.currentSlide ≤ s.totalSlides →
      goToSlideSteps s.currentSlide s =
        [Step.setAnimating true, Step.clearActive, Step.setActive s.currentSlide,
         Step.setCurrent s.currentSlide, Step.navButtons, Step.aria s.currentSlide,
         Step.pushURL s.currentSlide, Step.schedUnlock transitionDuration] ∧
      (goToSlide s.currentSlide s).isAnimating = true ∧
      (goToSlide s.currentSlide s).currentSlide = s.currentSlide ∧
      (goToSlide s.currentSlide s).pendingUnlock = some transitionDuration ∧
      (goToSlide s.currentSlide s).slides
        = setActiveSlide (clearActiveSlides s.slides) s.currentSlide ∧
      goToSlide s.currentSlide s ≠ s ∧
      (∀ m : Int, goToSlide m (goToSlide s.currentSlide s) = goToSlide s.currentSlide s) := by
  intro s ha h1 h2
  have hv : isValidSlideNumber s s.currentSlide = true := isValid_of_bounds s _ h1 h2
  have hrun := goToSlide_run s.currentSlide s ha hv
  have hanim : (goToSlide s.currentSlide s).isAnimating = true := by rw [hrun]
  refine ⟨by simp [goToSlideSteps, ha, hv], hanim, by rw [hrun], by rw [hrun], by rw [hrun],
    ?_, ?_⟩
  · intro heq
    rw [heq] at hanim
    rw [ha] at hanim
    exact Bool.noConfusion hanim
  · intro m
    exact goToSlide_noop m _ (by simp [hanim])

/-- Witness for C10: at the scenario state, re-navigating to the current
slide takes the lock and changes the state. -/
theorem c10_same_slide_not_filtered_witness :
    (goToSlide demo5.currentSlide demo5).isAnimating = true ∧
    goToSlide demo5.currentSlide demo5 ≠ demo5 := by
  have h := c10_same_slide_not_filtered demo5 (by decide) (by decide) (by decide)
  exact ⟨h.2.1, h.2.2.2.2.2.1⟩

end SliderApp
